import Mathlib

/-!
Formal model of the eos-rpki-agent core (vrp.py, worker.py, listener.py,
agent.py), as a shallow embedding: Python objects become Lean structures,
methods become pure functions, raised exceptions become explicit error
values, and the supervisor's mutation of its own attributes becomes
explicit state passing over an `AgentState` record.
-/

/-- A Python exception value, as propagated by the code under study. -/
inductive PyErr where
  | valueError (msg : String)
  | typeError (msg : String)
  | attributeError (msg : String)
deriving DecidableEq

/-! ## vrp.py : the VRP data model -/

/-- Models ipaddress.ip_network(p).version for a well-formed CIDR string:
IPv6 prefixes contain a colon, IPv4 prefixes do not (vrp.py line 35 only
consumes the version field of the parsed network). -/
def ipVersion (p : String) : Nat :=
  if p.data.contains ':' then 6 else 4

/-- A validated ROA payload object (vrp.py class VRP), with the attributes
set from the fetched JSON record: asn (string, AS-number form), the CIDR
prefix string (attribute named prefix in the source; Lean reserves that
word, so the field is pfx), maxLength and ta. The field oid models Python
object identity: VRP defines __hash__ but not __eq__, so comparison
between two VRP objects falls back to object identity, and two distinct
objects are unequal even when all their attributes agree. -/
structure VRP where
  oid : Nat
  asn : String
  pfx : String
  maxLength : Nat
  ta : String
deriving DecidableEq

/-- VRP.afi (vrp.py lines 32-35). -/
def VRP.afi (v : VRP) : String :=
  "ipv" ++ toString (ipVersion v.pfx)

/-- VRP.key (vrp.py lines 37-40): the hashable attribute tuple. -/
def VRP.key (v : VRP) : String × String × Nat × String :=
  (v.asn, v.pfx, v.maxLength, v.ta)

/-- VRP.as_number (vrp.py lines 42-45): self.asn.lstrip("AS") strips the
characters A and S from the left of the string. -/
def VRP.as_number (v : VRP) : String :=
  String.mk (v.asn.data.dropWhile (fun c => c == 'A' || c == 'S'))

/-- A set of VRPs (vrp.py class VRPSet). -/
structure VRPSet where
  elements : List VRP
deriving DecidableEq

/-- VRPSet.__init__ (vrp.py lines 69-71): self.elements = set(iterable).
Python set membership uses __eq__; VRP does not override __eq__, so the
set deduplicates by object identity, modelled as full structure equality
(the oid field makes distinct objects distinct). -/
def VRPSet.ofList (l : List VRP) : VRPSet :=
  ⟨l.dedup⟩

/-- len(VRPSet) (vrp.py lines 81-83). -/
def VRPSet.len (s : VRPSet) : Nat :=
  s.elements.length

/-- Models the external aggregate_prefixes library at its interface: one
pass over the input prefix strings yielding the covering prefixes. None
of the claims settled here depends on the aggregation itself, only on the
output being prefix values drawn from the input, so the model returns the
deduplicated input. -/
def aggregate_prefixes (ps : List String) : List String :=
  ps.dedup

/-- VRPSet.covered (vrp.py lines 85-88):
set(aggregate_prefixes([vrp.prefix for vrp in self if vrp.afi == afi])).
The outer set() of strings deduplicates by string value. -/
def VRPSet.covered (s : VRPSet) (afi : String) : List String :=
  (aggregate_prefixes ((s.elements.filter (fun v => v.afi == afi)).map
    (fun v => v.pfx))).dedup

/-- VRPSet.origins (vrp.py lines 90-93):
set([vrp.as_number for vrp in self if vrp.afi == afi and vrp.asn != "AS0"]). -/
def VRPSet.origins (s : VRPSet) (afi : String) : List String :=
  ((s.elements.filter (fun v => v.afi == afi && v.asn != "AS0")).map
    VRP.as_number).dedup

/-- VRPSet.prefixes_by_origin (vrp.py lines 95-98). -/
def VRPSet.prefixes_by_origin (s : VRPSet) (origin afi : String) : VRPSet :=
  VRPSet.ofList (s.elements.filter
    (fun v => v.as_number == origin && v.afi == afi))

/-- Number of distinct identity tuples in a list of VRP objects. -/
def distinctKeyCount (l : List VRP) : Nat :=
  (l.map VRP.key).dedup.length

/-- Two VRP objects carrying the same identity tuple, constructed
separately (distinct object identities), as in
VRPSet([VRP(**r), VRP(**r)]). -/
def vrpDup0 : VRP := ⟨0, "AS65000", "10.0.0.0/24", 24, "x"⟩

/-- Second construction of the same record as vrpDup0. -/
def vrpDup1 : VRP := ⟨1, "AS65000", "10.0.0.0/24", 24, "x"⟩

/-- Claim C1: constructing a VRPSet from a list containing duplicate
(asn, prefix, maxLength, ta) tuples is claimed to yield a collection whose
size equals the number of distinct identity tuples, with no two elements
sharing an identity key. The code does not satisfy this: VRP defines
__hash__ without __eq__, so set() falls back to identity comparison and
keeps both copies; the constructed set has two elements with the same
identity key. -/
theorem c1_vrpset_duplicate_key_not_deduplicated :
    (VRPSet.ofList [vrpDup0, vrpDup1]).len = 2
    ∧ distinctKeyCount [vrpDup0, vrpDup1] = 1
    ∧ vrpDup0 ∈ (VRPSet.ofList [vrpDup0, vrpDup1]).elements
    ∧ vrpDup1 ∈ (VRPSet.ofList [vrpDup0, vrpDup1]).elements
    ∧ vrpDup0.key = vrpDup1.key
    ∧ vrpDup0 ≠ vrpDup1 := by
  refine ⟨rfl, rfl, ?_, ?_, rfl, by decide⟩ <;> decide

/-- Claim C8: origins(afi) is exactly the set of bare origin-AS numbers of
the VRPs in that address family whose origin string is not the sentinel
AS0, and repeated calls on an unchanged collection return the same set. -/
theorem c8_origins_spec (s : VRPSet) (afi x : String) :
    (x ∈ s.origins afi ↔
      ∃ v, v ∈ s.elements ∧ v.afi = afi ∧ v.asn ≠ "AS0" ∧ v.as_number = x)
    ∧ s.origins afi = s.origins afi := by
  refine ⟨?_, rfl⟩
  simp only [VRPSet.origins, List.mem_dedup, List.mem_map, List.mem_filter,
    Bool.and_eq_true, beq_iff_eq, bne_iff_ne]
  constructor
  · rintro ⟨v, ⟨hv, hafi, hasn⟩, hx⟩
    exact ⟨v, hv, hafi, hasn, hx⟩
  · rintro ⟨v, hv, hafi, hasn, hx⟩
    exact ⟨v, ⟨hv, hafi, hasn⟩, hx⟩

/-! ## listener.py : RpkiHttpServer.process_vrps -/

/-- A Python runtime value as it appears in the listener's rendering
loops: either a bare prefix string (an element of covered(afi)) or a VRP
object (an element of a VRPSet). -/
inductive PyVal where
  | str (s : String)
  | vrpObj (v : VRP)
deriving DecidableEq

/-- One rendering step of listener.py lines 105-106 and 112-113:
"seq {seq} permit {prefix} le {maxLength}".format(seq=seq, **entry).
The ** unpacking requires entry to be a mapping; a str or a VRP object is
not a mapping, so the call raises TypeError. -/
def formatRule (seq : Nat) (entry : PyVal) : Except PyErr String :=
  match entry with
  | .str _ =>
      .error (.typeError "format() argument after ** must be a mapping, not str")
  | .vrpObj _ =>
      .error (.typeError "format() argument after ** must be a mapping, not VRP")

/-- listener.py line 115 calls self.vrps.for_origin(asn, afi); vrp.py
defines no method of that name on VRPSet (it defines prefixes_by_origin),
so the attribute lookup raises AttributeError. -/
def VRPSet.for_origin_lookup : Except PyErr (VRPSet → String → String → VRPSet) :=
  .error (.attributeError "VRPSet object has no attribute for_origin")

/-- The covered-prefix rule list for one address family (listener.py
lines 105-108): enumerate the covered prefixes and format each. -/
def renderCovered (s : VRPSet) (afi : String) : Except PyErr (List String) :=
  (s.covered afi).enum.mapM (fun p => formatRule p.1 (.str p.2))

/-- The per-origin rule list body (listener.py lines 112-115): would
enumerate and format the VRPs of the origin sub-collection. -/
def renderOriginRules (sub : VRPSet) : Except PyErr (List String) :=
  sub.elements.enum.mapM (fun p => formatRule p.1 (.vrpObj p.2))

/-- The per-origin loop for one address family (listener.py lines
110-115): for each origin, resolve vrps.for_origin then render. -/
def renderPerOrigin (s : VRPSet) (afi : String) :
    Except PyErr (List (String × List String)) :=
  (s.origins afi).mapM (fun asn =>
    match VRPSet.for_origin_lookup with
    | .error e => .error e
    | .ok f => (renderOriginRules (f s asn afi)).map (fun lines => (asn, lines)))

/-- The listener's served policy view (listener.py attributes covered,
for_origin, origins). -/
structure PolicyView where
  coveredLines : List (String × List String)
  originLines : List (String × List (String × List String))
  originSet : List String
deriving DecidableEq

/-- The body of process_vrps for one address family. -/
def processAfi (s : VRPSet) (afi : String) :
    Except PyErr (List String × List (String × List String)) :=
  match renderCovered s afi with
  | .error e => .error e
  | .ok cov =>
    match renderPerOrigin s afi with
    | .error e => .error e
    | .ok per => .ok (cov, per)

/-- RpkiHttpServer.process_vrps (listener.py lines 99-116): rebuild the
served policy view from the current VRP collection, iterating the two
address families in order. -/
def process_vrps (s : VRPSet) : Except PyErr PolicyView :=
  match processAfi s "ipv4" with
  | .error e => .error e
  | .ok r4 =>
    match processAfi s "ipv6" with
    | .error e => .error e
    | .ok r6 =>
      .ok { coveredLines := [("ipv4", r4.1), ("ipv6", r6.1)],
            originLines := [("ipv4", r4.2), ("ipv6", r6.2)],
            originSet := (s.origins "ipv4" ++ s.origins "ipv6").dedup }

/-- A one-element VRP collection on which the claimed rendering is
exercised. -/
def vrpC3 : VRP := ⟨0, "AS65000", "10.0.0.0/24", 24, "x"⟩

/-- Claim C3: rebuilding the served policy view is claimed to render each
prefix rule as the line seq n permit prefix le maxLength. The code cannot
do so: the entries of covered(afi) are bare aggregated prefixes, not
mappings carrying prefix/maxLength keys, so the very first format call
with **entry raises TypeError (and the per-origin loop would call the
nonexistent VRPSet.for_origin). process_vrps therefore fails on every
nonempty collection instead of producing rule lines. -/
theorem c3_process_vrps_raises_on_rendering :
    process_vrps (VRPSet.ofList [vrpC3])
      = .error (.typeError "format() argument after ** must be a mapping, not str")
    ∧ (VRPSet.ofList [vrpC3]).covered "ipv4" = ["10.0.0.0/24"] := by
  exact ⟨rfl, rfl⟩

/-! ## Channels (multiprocessing.Pipe endpoints) -/

/-- One parent-side endpoint of a one-way multiprocessing.Pipe: the file
descriptor returned by fileno() and the queue of pending messages. -/
structure Chan (α : Type) where
  fd : Nat
  queue : List α
deriving DecidableEq

/-- Connection.poll(): true when a message is pending; returns
immediately in either case. -/
def Chan.poll {α : Type} (c : Chan α) : Bool :=
  !c.queue.isEmpty

/-- Connection.recv() under a successful poll: the pending message. The
code only ever calls recv after poll returned true, so the value on an
empty queue is never consumed; it is modelled as none. -/
def Chan.recv {α : Type} (c : Chan α) : Option α :=
  c.queue.head?

/-! ## worker.py : RpkiWorker -/

/-- The per-cycle statistics dict computed by RpkiWorker.run (worker.py
lines 43-54), in insertion order. -/
def computeStats (vrps : VRPSet) : List (String × Nat) :=
  [("covered_prefixes_ipv4", (vrps.covered "ipv4").length),
   ("origin_asns_ipv4", (vrps.origins "ipv4").length),
   ("covered_prefixes_ipv6", (vrps.covered "ipv6").length),
   ("origin_asns_ipv6", (vrps.origins "ipv6").length),
   ("origin_asns_total", ((vrps.origins "ipv4") ++ (vrps.origins "ipv6")).dedup.length)]

/-- The worker's data-channel message type: the (statistics, collection)
pair of worker.py line 55. -/
def DataMsg : Type := List (String × Nat) × VRPSet

instance : DecidableEq DataMsg := by
  unfold DataMsg
  infer_instance

/-- Outcome of one step inside the try block of RpkiWorker.run: the step
returns a value, raises an exception, or is interrupted by SIGTERM
(handle_sigterm, modelled from the spec: an externally delivered
termination signal raises the clean-exit TermException; rpki_agent
.exceptions is not under src/). -/
inductive StepResult (α : Type) where
  | ok (a : α)
  | exc (e : PyErr)
  | term
deriving DecidableEq

/-- What the worker process did before exiting: the messages sent on each
child-side channel endpoint and whether each endpoint was closed. -/
structure WorkerOutcome where
  dataSent : List DataMsg
  errSent : List PyErr
  c_data_closed : Bool
  c_err_closed : Bool

/-- RpkiWorker.run (worker.py lines 38-63): try connect_eapi, fetch,
compute statistics (pure), send (stats, vrps) on c_data; on TermException
log and send nothing; on any other exception send it on c_err; finally
close c_err and c_data. The connect step models connect_eapi (worker.py
lines 65-72) and the fetch step models fetch (worker.py lines 74-83,
HTTP GET, JSON parse and VRP construction), each of which either returns,
raises, or is interrupted by the termination signal. -/
def RpkiWorker.run (connect : StepResult Unit) (fetch : StepResult VRPSet) :
    WorkerOutcome :=
  match connect with
  | .exc e => ⟨[], [e], true, true⟩
  | .term => ⟨[], [], true, true⟩
  | .ok _ =>
    match fetch with
    | .exc e => ⟨[], [e], true, true⟩
    | .term => ⟨[], [], true, true⟩
    | .ok vrps => ⟨[(computeStats vrps, vrps)], [], true, true⟩

/-- Claim C4: on any failure the worker sends the error on its error
channel and sends nothing on the data channel; data only ever appears as
the single complete (statistics, collection) pair of a fully successful
run; and both outbound endpoints are closed in every case. -/
theorem c4_worker_channel_contract (connect : StepResult Unit)
    (fetch : StepResult VRPSet) :
    (RpkiWorker.run connect fetch).c_data_closed = true
    ∧ (RpkiWorker.run connect fetch).c_err_closed = true
    ∧ (∀ e, (connect = .exc e ∨ (connect = .ok () ∧ fetch = .exc e)) →
        (RpkiWorker.run connect fetch).errSent = [e]
        ∧ (RpkiWorker.run connect fetch).dataSent = [])
    ∧ ((RpkiWorker.run connect fetch).dataSent ≠ [] →
        ∃ vrps, connect = .ok () ∧ fetch = .ok vrps
          ∧ (RpkiWorker.run connect fetch).dataSent = [(computeStats vrps, vrps)]
          ∧ (RpkiWorker.run connect fetch).errSent = []) := by
  cases connect <;> cases fetch <;>
    simp [RpkiWorker.run]

/-- Closed instance of the C4 contract: a fetch failure puts exactly that
error on the error channel, nothing on the data channel, and both
endpoints are closed. -/
theorem c4_worker_channel_contract_witness :
    (RpkiWorker.run (.ok ()) (.exc (.valueError "No JSON object could be decoded"))).errSent
        = [.valueError "No JSON object could be decoded"]
    ∧ (RpkiWorker.run (.ok ()) (.exc (.valueError "No JSON object could be decoded"))).dataSent = []
    ∧ (RpkiWorker.run (.ok ()) (.exc (.valueError "No JSON object could be decoded"))).c_data_closed = true
    ∧ (RpkiWorker.run (.ok ()) (.exc (.valueError "No JSON object could be decoded"))).c_err_closed = true := by
  have h := c4_worker_channel_contract (.ok ())
    (.exc (.valueError "No JSON object could be decoded"))
  have h3 := h.2.2.1 (.valueError "No JSON object could be decoded")
    (Or.inr ⟨rfl, rfl⟩)
  exact ⟨h3.1, h3.2, h.1, h.2.1⟩

/-- A spawned RpkiWorker as seen from the supervisor (worker.py lines
30-36): the parent-side endpoints p_data and p_err of the two one-way
pipes, plus process liveness. -/
structure WorkerProc where
  pid : Nat
  cache_url : String
  p_data : Chan DataMsg
  p_err : Chan PyErr
  alive : Bool
deriving DecidableEq

/-- A spawned RpkiListener as seen from the supervisor (listener.py lines
31-36): p_err is the parent-side read end of its error pipe, p_data the
parent-side write end of its inbound VRP-collection pipe. -/
structure ListenerProc where
  pid : Nat
  p_err : Chan PyErr
  p_data : Chan VRPSet
  alive : Bool
deriving DecidableEq

/-- RpkiWorker.data (worker.py lines 85-89): if self.p_data.poll():
return self.p_data.recv() — implicitly returning None when nothing is
pending. -/
def RpkiWorker.data (w : WorkerProc) : Option DataMsg :=
  if Chan.poll w.p_data then Chan.recv w.p_data else none

/-- RpkiWorker.error (worker.py lines 91-95). -/
def RpkiWorker.error (w : WorkerProc) : Option PyErr :=
  if Chan.poll w.p_err then Chan.recv w.p_err else none

/-- RpkiListener.error (listener.py lines 54-58). -/
def RpkiListener.error (l : ListenerProc) : Option PyErr :=
  if Chan.poll l.p_err then Chan.recv l.p_err else none

/-- Claim C10: the parent-side data and error properties never block:
each evaluates to the pending head message of its channel queue when one
is available, and to none when the queue is empty, for the worker data
property, the worker error property and the listener error property. -/
theorem c10_properties_nonblocking (w : WorkerProc) (l : ListenerProc) :
    RpkiWorker.data w = w.p_data.queue.head?
    ∧ RpkiWorker.error w = w.p_err.queue.head?
    ∧ RpkiListener.error l = l.p_err.queue.head? := by
  refine ⟨?_, ?_, ?_⟩ <;>
    · simp only [RpkiWorker.data, RpkiWorker.error, RpkiListener.error,
        Chan.poll, Chan.recv]
      split <;> simp_all [List.isEmpty_iff]

/-! ## agent.py : configuration (set, configure, refresh_interval) -/

/-- Python int() on a decimal string literal: strip surrounding
whitespace, optional sign, then a nonempty digit run; anything else
raises ValueError. -/
def pyInt (s : String) : Except PyErr Int :=
  let t := (s.data.dropWhile (fun c => c == ' ')).reverse.dropWhile
    (fun c => c == ' ') |>.reverse
  let core :=
    match t with
    | '-' :: rest => (true, rest)
    | '+' :: rest => (false, rest)
    | _ => (false, t)
  if core.2 ≠ [] ∧ core.2.all Char.isDigit then
    let n : Nat := core.2.foldl (fun acc c => acc * 10 + (c.toNat - 48)) 0
    .ok (if core.1 then -(n : Int) else (n : Int))
  else
    .error (.valueError "invalid literal for int() with base 10")

/-- RpkiAgent.set coercion (agent.py lines 171-172): if not value:
value = None — the empty string is the only falsy string. -/
def pyCoerceValue (v : Option String) : Option String :=
  match v with
  | some "" => none
  | _ => v

/-- The refresh_interval property setter (agent.py lines 98-108): a falsy
value resets to the default 10, otherwise int() conversion; the result is
stored only when it lies in range(10, 86400), else ValueError is raised
and the stored attribute is left untouched. -/
def refreshIntervalOfValue (v : Option String) : Except PyErr Int :=
  match (match v with
         | none => Except.ok (10 : Int)
         | some t => pyInt t) with
  | .error e => .error e
  | .ok i =>
      if 10 ≤ i ∧ i < 86400 then .ok i
      else .error (.valueError "refresh_interval must be in range 1 - 86399")

/-- The configurable attributes of the agent touched by setattr in
RpkiAgent.set: cache_url and refresh_interval (agent.py line 37). -/
def AgentCfg : Type := Option String × Int

instance : DecidableEq AgentCfg := by
  unfold AgentCfg
  infer_instance

/-- RpkiAgent.set for one option (agent.py lines 169-177): coerce falsy
values to None, dispatch on the option name; unknown names are logged and
ignored; a raised ValueError leaves the attributes untouched and is
propagated to the caller. -/
def applyOption (cfg : AgentCfg) (key : String) (value : Option String) :
    AgentCfg × Option PyErr :=
  let v := pyCoerceValue value
  if key = "cache_url" then ((v, cfg.2), none)
  else if key = "refresh_interval" then
    match refreshIntervalOfValue v with
    | .ok i => ((cfg.1, i), none)
    | .error e => (cfg, some e)
  else (cfg, none)

/-- RpkiAgent.configure (agent.py lines 162-167) over the host's option
store: each option is assigned in turn via set; set does not catch the
setter's ValueError, and neither does configure, so the first failing
assignment aborts the loop with that exception and the remaining options
are not processed. -/
def configureCfg (cfg : AgentCfg) :
    List (String × Option String) → AgentCfg × Option PyErr
  | [] => (cfg, none)
  | (k, v) :: rest =>
    match applyOption cfg k v with
    | (cfg', none) => configureCfg cfg' rest
    | (cfg', some e) => (cfg', some e)

/-- The error, if any, that assigning one option raises; it depends only
on the option itself, not on the current attribute values. -/
def optErr (key : String) (value : Option String) : Option PyErr :=
  if key = "cache_url" then none
  else if key = "refresh_interval" then
    match refreshIntervalOfValue (pyCoerceValue value) with
    | .ok _ => none
    | .error e => some e
  else none

/-- No option in the list raises on assignment. -/
def optsOk (opts : List (String × Option String)) : Bool :=
  opts.all (fun kv => (optErr kv.1 kv.2).isNone)

theorem applyOption_snd (cfg : AgentCfg) (key : String) (value : Option String) :
    (applyOption cfg key value).2 = optErr key value := by
  simp only [applyOption, optErr]
  split
  · rfl
  · split
    · split <;> rfl
    · rfl

theorem applyOption_ok (cfg : AgentCfg) (key : String) (value : Option String)
    (h : optErr key value = none) :
    (applyOption cfg key value).2 = none := by
  rw [applyOption_snd, h]

theorem configureCfg_ok (opts : List (String × Option String)) (cfg : AgentCfg)
    (h : optsOk opts = true) : (configureCfg cfg opts).2 = none := by
  induction opts generalizing cfg with
  | nil => rfl
  | cons kv rest ih =>
    simp only [optsOk, List.all_cons, Bool.and_eq_true, Option.isNone_iff_eq_none] at h
    have hs := applyOption_ok cfg kv.1 kv.2 h.1
    simp only [configureCfg]
    rcases hkv : applyOption cfg kv.1 kv.2 with ⟨cfg', e⟩
    rw [hkv] at hs
    cases e with
    | none =>
      have := ih cfg' (by simpa [optsOk] using h.2)
      simpa using this
    | some e' => simp at hs

/-! ## agent.py : the supervisor state machine -/

/-- Which child process a failure/cleanup call refers to (Python passes
the object itself, possibly None; the model passes a selector resolved
against the agent's current attributes). -/
inductive ProcKind where
  | worker
  | listener
deriving DecidableEq

/-- The supervisor's own attributes (RpkiAgent.__init__, agent.py lines
59-81) plus the bookkeeping the embedding needs: trace records every
status write in order (each write is also published to the host status
surface); retired_workers and retired_listeners keep the child objects
that init/run overwrote, so liveness of every spawned child can be
counted; hostOptions is the host's option store read by configure;
nextPid/nextFd allocate fresh pids and file descriptors; now is the
clock read by datetime.now(). -/
structure AgentState where
  cache_url : Option String
  refresh_interval : Int
  status : Option String
  result : Option String
  last_start : Option Nat
  last_end : Option Nat
  worker : Option WorkerProc
  listener : Option ListenerProc
  retired_workers : List WorkerProc
  retired_listeners : List ListenerProc
  watching : List Nat
  hostOptions : List (String × Option String)
  trace : List String
  timerArmed : Bool
  now : Nat
  nextPid : Nat
  nextFd : Nat
deriving DecidableEq

/-- The freshly initialised agent (agent.py lines 59-81): no children, no
cache_url, refresh_interval 10. -/
def initialAgentState : AgentState :=
  { cache_url := none
    refresh_interval := 10
    status := none
    result := none
    last_start := none
    last_end := none
    worker := none
    listener := none
    retired_workers := []
    retired_listeners := []
    watching := []
    hostOptions := []
    trace := []
    timerArmed := false
    now := 0
    nextPid := 1
    nextFd := 3 }

namespace RpkiAgent

/-- The status property setter (agent.py lines 115-120): store, publish
to the host status surface and trace — modelled by appending to trace. -/
def setStatus (s : AgentState) (v : String) : AgentState :=
  { s with status := some v, trace := s.trace ++ [v] }

/-- RpkiAgent.watch (agent.py lines 219-225): register interest in a
file descriptor's readability. -/
def watch (s : AgentState) (fd : Nat) : AgentState :=
  { s with watching := s.watching ++ [fd] }

/-- RpkiAgent.configure (agent.py lines 162-167): assign every option
from the host's option store via set; the first raised ValueError aborts
the loop and propagates; only the cache_url / refresh_interval
attributes are touched. -/
def configure (s : AgentState) : AgentState × Option PyErr :=
  let r := configureCfg (s.cache_url, s.refresh_interval) s.hostOptions
  ({ s with cache_url := r.1.1, refresh_interval := r.1.2 }, r.2)

/-- RpkiAgent.init (agent.py lines 186-197): construct a fresh
RpkiListener (allocating its pipes), watch its error endpoint, start it.
Process spawning is modelled as succeeding; the previous listener object,
no longer referenced by the agent, is kept in the ghost retired list. -/
def init (s : AgentState) : AgentState :=
  let l : ListenerProc :=
    { pid := s.nextPid
      p_err := { fd := s.nextFd, queue := [] }
      p_data := { fd := s.nextFd + 1, queue := [] }
      alive := true }
  let s := { s with
    retired_listeners := s.retired_listeners ++ s.listener.toList
    listener := some l
    nextPid := s.nextPid + 1
    nextFd := s.nextFd + 2 }
  watch s l.p_err.fd

/-- RpkiAgent.sleep (agent.py lines 301-304): status sleeping, arm the
one-shot refresh timer. -/
def sleep (s : AgentState) : AgentState :=
  let s := setStatus s "sleeping"
  { s with timerArmed := true }

/-- RpkiAgent.run (agent.py lines 199-217): status running; with a
cache_url, record last_start, spawn a fresh worker bound to it and watch
its data and error endpoints (spawning modelled as succeeding, so the
except-branch that reports an immediate failure is not taken); without a
cache_url, log a warning and go directly to sleep. -/
def run (s : AgentState) : AgentState :=
  let s := setStatus s "running"
  match s.cache_url with
  | some url =>
    let s := { s with last_start := some s.now }
    let w : WorkerProc :=
      { pid := s.nextPid
        cache_url := url
        p_data := { fd := s.nextFd, queue := [] }
        p_err := { fd := s.nextFd + 1, queue := [] }
        alive := true }
    let s := { s with
      retired_workers := s.retired_workers ++ s.worker.toList
      worker := some w
      nextPid := s.nextPid + 1
      nextFd := s.nextFd + 2 }
    watch (watch s w.p_data.fd) w.p_err.fd
  | none => sleep s

/-- RpkiAgent.cleanup (agent.py lines 279-299): status cleanup; for a
child that exists, unwatch and close every watched endpoint discovered on
it, then terminate and join it if still alive (modelled by clearing the
alive flag; idempotent). With process None only the status write
happens. -/
def cleanup (s : AgentState) (proc : Option ProcKind) : AgentState :=
  let s := setStatus s "cleanup"
  match proc with
  | none => s
  | some .worker =>
    match s.worker with
    | none => s
    | some w =>
      { s with
        watching := s.watching.filter
          (fun fd => !(fd == w.p_data.fd || fd == w.p_err.fd))
        worker := some { w with alive := false } }
  | some .listener =>
    match s.listener with
    | none => s
    | some l =>
      { s with
        watching := s.watching.filter
          (fun fd => !(fd == l.p_err.fd || fd == l.p_data.fd))
        listener := some { l with alive := false } }

/-- RpkiAgent.start (agent.py lines 179-184): status init, configure,
init, run; a configure exception propagates out before the listener is
spawned. -/
def start (s : AgentState) : AgentState × Option PyErr :=
  let s := setStatus s "init"
  match configure s with
  | (s', some e) => (s', some e)
  | (s', none) => (run (init s'), none)

/-- RpkiAgent.restart (agent.py lines 317-326): status restarting, clean
up both children (exceptions there are logged and swallowed; cleanup in
the model is total), then re-run the full start sequence. -/
def restart (s : AgentState) : AgentState × Option PyErr :=
  let s := setStatus s "restarting"
  let s := cleanup s (some .worker)
  let s := cleanup s (some .listener)
  start s

/-- The body of RpkiAgent.failure before the restart decision (agent.py
lines 254-266): status error; when no explicit error was passed, read
process.error (which dequeues the pending message; reading the attribute
of a missing process raises AttributeError, caught and used as the
fallback error value); then result failed and last_end now. -/
def failurePre (s : AgentState) (err : Option PyErr) (proc : Option ProcKind) :
    AgentState :=
  let s := setStatus s "error"
  let s :=
    match err with
    | some _ => s
    | none =>
      match proc with
      | none => s
      | some .worker =>
        match s.worker with
        | none => s
        | some w =>
          let w' : WorkerProc :=
            { w with p_err := { w.p_err with queue := w.p_err.queue.tail } }
          { s with worker := some w' }
      | some .listener =>
        match s.listener with
        | none => s
        | some l =>
          let l' : ListenerProc :=
            { l with p_err := { l.p_err with queue := l.p_err.queue.tail } }
          { s with listener := some l' }
  { s with result := some "failed", last_end := some s.now }

/-- RpkiAgent.failure (agent.py lines 254-271): the error bookkeeping of
failurePre, then a full restart when requested, else clean up the failed
child and sleep. -/
def failure (s : AgentState) (err : Option PyErr) (proc : Option ProcKind)
    (restartFlag : Bool) : AgentState × Option PyErr :=
  let s := failurePre s err proc
  if restartFlag then restart s
  else (sleep (cleanup s proc), none)

/-- The handler actions RpkiAgent.on_readable dispatches to. -/
inductive DispatchAction where
  | success
  | workerFailure
  | listenerRestart
  | unknownIgnored
deriving DecidableEq

/-- RpkiAgent.on_readable (agent.py lines 348-361): compare the readable
file descriptor against self.worker.p_data, self.worker.p_err and
self.listener.p_err in that order. self.worker is None until run() has
spawned a worker, and evaluating self.worker.p_data then raises
AttributeError before any comparison happens; likewise for a missing
listener attribute. The selected handler is returned as an action. -/
def on_readable (s : AgentState) (fd : Nat) : Except PyErr DispatchAction :=
  match s.worker with
  | none => .error (.attributeError "NoneType object has no attribute p_data")
  | some w =>
    if fd = w.p_data.fd then .ok .success
    else if fd = w.p_err.fd then .ok .workerFailure
    else
      match s.listener with
      | none => .error (.attributeError "NoneType object has no attribute p_err")
      | some l =>
        if fd = l.p_err.fd then .ok .listenerRestart
        else .ok .unknownIgnored

end RpkiAgent

/-- The number of live listener processes the agent has spawned: the
current listener attribute plus every overwritten (retired) one. -/
def liveListeners (s : AgentState) : Nat :=
  (s.retired_listeners.filter (fun l => l.alive)).length +
    (match s.listener with
     | some l => if l.alive then 1 else 0
     | none => 0)

/-! ## Claims about configuration handling -/

/-- Agent state whose host option store lists an out-of-range
refresh_interval first and a cache_url second. -/
def s5 : AgentState :=
  { initialAgentState with
      hostOptions := [("refresh_interval", some "9"),
                      ("cache_url", some "https://rpki.example.net/export.json")] }

/-- Claim C5, counterexample: the claim says an invalid refresh_interval
aborts only that single assignment and the configure step continues with
the remaining options. On this input configure stops at the failing
assignment with the raised ValueError and the cache_url option that
follows is never processed (cache_url stays unset). -/
theorem c5_configure_abort_counterexample :
    (RpkiAgent.configure s5).2
        = some (.valueError "refresh_interval must be in range 1 - 86399")
    ∧ (RpkiAgent.configure s5).1.cache_url = none
    ∧ (RpkiAgent.configure s5).1.refresh_interval = 10 := by
  exact ⟨rfl, rfl, rfl⟩

/-- Claim C5 as amended: an invalid refresh_interval value raises a
validation error that propagates out of configure, aborting the whole
configure step — the remaining options are not processed — while the
agent's stored refresh_interval (and every other attribute) keeps its
prior value. -/
theorem c5_configure_abort_amended (s : AgentState) (bad : String) (e : PyErr)
    (rest : List (String × Option String))
    (hbad : refreshIntervalOfValue (pyCoerceValue (some bad)) = .error e)
    (hopts : s.hostOptions = ("refresh_interval", some bad) :: rest) :
    (RpkiAgent.configure s).2 = some e
    ∧ (RpkiAgent.configure s).1 = s := by
  obtain ⟨cu, ri, st, re, ls, le, wo, li, rtw, rtl, wa, ho, tr, ti, no, np, nf⟩ := s
  replace hopts : ho = ("refresh_interval", some bad) :: rest := hopts
  subst hopts
  have happ : applyOption (cu, ri) "refresh_interval" (some bad)
      = ((cu, ri), some e) := by
    simp [applyOption, hbad]
  constructor <;> simp [RpkiAgent.configure, configureCfg, happ]

/-- Closed instance of the amended C5: with options
[refresh_interval=9, cache_url=...] the configure step returns the
ValueError and the whole state, cache_url and refresh_interval included,
is unchanged. -/
theorem c5_configure_abort_amended_witness :
    refreshIntervalOfValue (pyCoerceValue (some "9"))
        = .error (.valueError "refresh_interval must be in range 1 - 86399")
    ∧ s5.hostOptions = ("refresh_interval", some "9") ::
        [("cache_url", some "https://rpki.example.net/export.json")]
    ∧ (RpkiAgent.configure s5).2
        = some (.valueError "refresh_interval must be in range 1 - 86399")
    ∧ (RpkiAgent.configure s5).1 = s5 := by
  have h := c5_configure_abort_amended s5 "9"
    (.valueError "refresh_interval must be in range 1 - 86399")
    [("cache_url", some "https://rpki.example.net/export.json")] rfl rfl
  exact ⟨rfl, rfl, h.1, h.2⟩

/-- Claim C6: the refresh_interval assignment rejects 9 and 86400 with a
validation error leaving the stored value (here 77) unchanged, accepts 10
and 86399, and resets to the default 10 on an absent or empty value. -/
theorem c6_refresh_interval_boundaries :
    applyOption ((none, 77) : AgentCfg) "refresh_interval" (some "9")
        = (((none, 77) : AgentCfg),
           some (.valueError "refresh_interval must be in range 1 - 86399"))
    ∧ applyOption ((none, 77) : AgentCfg) "refresh_interval" (some "86400")
        = (((none, 77) : AgentCfg),
           some (.valueError "refresh_interval must be in range 1 - 86399"))
    ∧ applyOption ((none, 77) : AgentCfg) "refresh_interval" (some "10")
        = (((none, 10) : AgentCfg), none)
    ∧ applyOption ((none, 77) : AgentCfg) "refresh_interval" (some "86399")
        = (((none, 86399) : AgentCfg), none)
    ∧ applyOption ((none, 77) : AgentCfg) "refresh_interval" none
        = (((none, 10) : AgentCfg), none)
    ∧ applyOption ((none, 77) : AgentCfg) "refresh_interval" (some "")
        = (((none, 10) : AgentCfg), none) := by
  exact ⟨rfl, rfl, rfl, rfl, rfl, rfl⟩

/-! ## Claims about the supervisor transitions -/

/-- Claim C7: entering running with no cache_url configured logs a
warning and goes directly to sleeping: no worker is spawned (worker
attribute, retired list, pid and fd counters unchanged), no fetch is
started (last_start unchanged), and result is untouched; only the status
trace gains running then sleeping, with the refresh timer armed. -/
theorem c7_run_without_cache_url (s : AgentState) (h : s.cache_url = none) :
    (RpkiAgent.run s).status = some "sleeping"
    ∧ (RpkiAgent.run s).worker = s.worker
    ∧ (RpkiAgent.run s).result = s.result
    ∧ (RpkiAgent.run s).last_start = s.last_start
    ∧ (RpkiAgent.run s).last_end = s.last_end
    ∧ (RpkiAgent.run s).listener = s.listener
    ∧ (RpkiAgent.run s).retired_workers = s.retired_workers
    ∧ (RpkiAgent.run s).nextPid = s.nextPid
    ∧ (RpkiAgent.run s).nextFd = s.nextFd
    ∧ (RpkiAgent.run s).timerArmed = true
    ∧ (RpkiAgent.run s).trace = s.trace ++ ["running", "sleeping"] := by
  simp [RpkiAgent.run, RpkiAgent.sleep, RpkiAgent.setStatus, h]

/-- Closed instance of C7 at the freshly initialised agent. -/
theorem c7_run_without_cache_url_witness :
    initialAgentState.cache_url = none
    ∧ (RpkiAgent.run initialAgentState).status = some "sleeping"
    ∧ (RpkiAgent.run initialAgentState).worker = initialAgentState.worker := by
  have h := c7_run_without_cache_url initialAgentState rfl
  exact ⟨rfl, h.1, h.2.1⟩

/-- The listener of the C9 scenario: spawned at init, with a pending
error on its error channel (fd 3). -/
def listener9 : ListenerProc :=
  { pid := 1
    p_err := { fd := 3, queue := [PyErr.valueError "listener died"] }
    p_data := { fd := 4, queue := [] }
    alive := true }

/-- The C9 scenario state: cache_url was never set, so run() never
spawned a worker (worker is None) and the agent sleeps while the
listener's error channel is watched. -/
def s9 : AgentState :=
  { initialAgentState with
      listener := some listener9
      status := some "sleeping"
      watching := [3]
      nextPid := 2
      nextFd := 5 }

/-- Claim C9: on_readable is claimed to pattern-match totally, so that a
listener error-channel readiness with no worker object still reaches the
listener-failure/restart path. The code instead evaluates
self.worker.p_data.fileno() first: with self.worker = None this raises
AttributeError and no handler — in particular not the listener restart
path — is ever reached. -/
theorem c9_on_readable_none_worker_raises :
    s9.worker = none
    ∧ s9.listener = some listener9
    ∧ RpkiAgent.on_readable s9 listener9.p_err.fd
        = .error (.attributeError "NoneType object has no attribute p_data")
    ∧ RpkiAgent.on_readable s9 listener9.p_err.fd
        ≠ .ok .listenerRestart := by
  refine ⟨rfl, rfl, rfl, ?_⟩
  intro h
  exact Except.noConfusion h

/-! ## Claim C2 : listener failure triggers a full restart -/

theorem filter_alive_nil (L : List ListenerProc)
    (h : ∀ l ∈ L, l.alive = false) :
    L.filter (fun l => l.alive) = [] := by
  induction L with
  | nil => rfl
  | cons a t ih =>
    rw [List.filter_cons]
    simp only [h a (by simp)]
    exact ih (fun l hl => h l (by simp [hl]))

theorem liveListeners_init_eq (s : AgentState)
    (hdead : ∀ l, s.listener = some l → l.alive = false)
    (hret : ∀ l ∈ s.retired_listeners, l.alive = false) :
    liveListeners (RpkiAgent.init s) = 1 := by
  simp only [RpkiAgent.init, RpkiAgent.watch, liveListeners]
  rcases hl : s.listener with _ | l
  · simp [hl, filter_alive_nil s.retired_listeners hret]
  · have hnil : (s.retired_listeners ++ [l]).filter (fun x => x.alive) = [] := by
      apply filter_alive_nil
      intro x hx
      rcases List.mem_append.mp hx with hx | hx
      · exact hret x hx
      · have : x = l := by simpa using hx
        subst this
        exact hdead x hl
    simp [hl, hnil]

theorem liveListeners_run_eq (s : AgentState) :
    liveListeners (RpkiAgent.run s) = liveListeners s := by
  rcases hc : s.cache_url with _ | url <;>
    simp [RpkiAgent.run, RpkiAgent.sleep, RpkiAgent.setStatus, RpkiAgent.watch,
      liveListeners, hc]

theorem run_trace (s : AgentState) :
    ∃ rest, (RpkiAgent.run s).trace = s.trace ++ "running" :: rest := by
  rcases hc : s.cache_url with _ | url
  · exact ⟨["sleeping"],
      by simp [RpkiAgent.run, RpkiAgent.sleep, RpkiAgent.setStatus, hc]⟩
  · exact ⟨[],
      by simp [RpkiAgent.run, RpkiAgent.setStatus, RpkiAgent.watch, hc]⟩

theorem configure_listener (s : AgentState) :
    (RpkiAgent.configure s).1.listener = s.listener := rfl

theorem configure_retired (s : AgentState) :
    (RpkiAgent.configure s).1.retired_listeners = s.retired_listeners := rfl

theorem configure_trace (s : AgentState) :
    (RpkiAgent.configure s).1.trace = s.trace := rfl

theorem configure_err (s : AgentState) (h : optsOk s.hostOptions = true) :
    (RpkiAgent.configure s).2 = none :=
  configureCfg_ok s.hostOptions _ h

theorem start_spec (s : AgentState)
    (hopts : optsOk s.hostOptions = true)
    (hdead : ∀ l, s.listener = some l → l.alive = false)
    (hret : ∀ l ∈ s.retired_listeners, l.alive = false) :
    liveListeners (RpkiAgent.start s).1 = 1
    ∧ (RpkiAgent.start s).2 = none
    ∧ ∃ rest, (RpkiAgent.start s).1.trace = (s.trace ++ ["init"]) ++ rest := by
  have h1 : (RpkiAgent.configure (RpkiAgent.setStatus s "init")).2 = none :=
    configure_err _ hopts
  rcases hconf : RpkiAgent.configure (RpkiAgent.setStatus s "init") with ⟨s', e⟩
  have he : e = none := by rw [hconf] at h1; exact h1
  subst he
  have hstart : RpkiAgent.start s = (RpkiAgent.run (RpkiAgent.init s'), none) := by
    simp [RpkiAgent.start, hconf]
  rw [hstart]
  have hsl : s'.listener = s.listener := by
    have h := configure_listener (RpkiAgent.setStatus s "init")
    rw [hconf] at h
    exact h
  have hsr : s'.retired_listeners = s.retired_listeners := by
    have h := configure_retired (RpkiAgent.setStatus s "init")
    rw [hconf] at h
    exact h
  have hst : s'.trace = s.trace ++ ["init"] := by
    have h := configure_trace (RpkiAgent.setStatus s "init")
    rw [hconf] at h
    simpa [RpkiAgent.setStatus] using h
  refine ⟨?_, rfl, ?_⟩
  · rw [liveListeners_run_eq]
    apply liveListeners_init_eq
    · intro l hl
      exact hdead l (by rwa [hsl] at hl)
    · intro l hl
      exact hret l (by rwa [hsr] at hl)
  · obtain ⟨rest, hr⟩ := run_trace (RpkiAgent.init s')
    have hit : (RpkiAgent.init s').trace = s'.trace := by
      simp [RpkiAgent.init, RpkiAgent.watch]
    refine ⟨"running" :: rest, ?_⟩
    rw [hr, hit, hst]

theorem cleanup_fields (s : AgentState) (proc : Option ProcKind) :
    (RpkiAgent.cleanup s proc).retired_listeners = s.retired_listeners
    ∧ (RpkiAgent.cleanup s proc).hostOptions = s.hostOptions
    ∧ (RpkiAgent.cleanup s proc).trace = s.trace ++ ["cleanup"] := by
  rcases proc with _ | k
  · simp [RpkiAgent.cleanup, RpkiAgent.setStatus]
  · cases k
    · rcases hw : s.worker with _ | w <;>
        simp [RpkiAgent.cleanup, RpkiAgent.setStatus, hw]
    · rcases hl : s.listener with _ | l <;>
        simp [RpkiAgent.cleanup, RpkiAgent.setStatus, hl]

theorem cleanup_worker_listener_eq (s : AgentState) :
    (RpkiAgent.cleanup s (some .worker)).listener = s.listener := by
  rcases hw : s.worker with _ | w <;>
    simp [RpkiAgent.cleanup, RpkiAgent.setStatus, hw]

theorem cleanup_listener_dead (s : AgentState) :
    ∀ l, (RpkiAgent.cleanup s (some .listener)).listener = some l →
      l.alive = false := by
  intro x hx
  rcases hl : s.listener with _ | l
  · simp [RpkiAgent.cleanup, RpkiAgent.setStatus, hl] at hx
  · simp [RpkiAgent.cleanup, RpkiAgent.setStatus, hl] at hx
    rw [← hx]

theorem failurePre_listener_fields (s : AgentState) :
    (RpkiAgent.failurePre s none (some .listener)).retired_listeners
        = s.retired_listeners
    ∧ (RpkiAgent.failurePre s none (some .listener)).hostOptions = s.hostOptions
    ∧ (RpkiAgent.failurePre s none (some .listener)).trace = s.trace ++ ["error"] := by
  rcases hl : s.listener with _ | l <;>
    simp [RpkiAgent.failurePre, RpkiAgent.setStatus, hl]

/-- Claim C2: handling a listener error (failure with restart) drives the
supervisor through error, restarting, the cleanup of both children and a
fresh init, after which exactly one live listener exists — the newly
spawned one — provided the configured options are valid (an option
exception would propagate out of configure before init re-spawns) and
every previously retired listener is already dead, as cleanup guarantees
along every path that retires one. The call also returns without a
propagated exception. -/
theorem c2_listener_error_restart_one_live_listener (s : AgentState)
    (hopts : optsOk s.hostOptions = true)
    (hret : ∀ l ∈ s.retired_listeners, l.alive = false) :
    liveListeners (RpkiAgent.failure s none (some .listener) true).1 = 1
    ∧ (RpkiAgent.failure s none (some .listener) true).2 = none
    ∧ ∃ rest, (RpkiAgent.failure s none (some .listener) true).1.trace
        = s.trace ++ ["error", "restarting", "cleanup", "cleanup", "init"] ++ rest := by
  have hfail : RpkiAgent.failure s none (some .listener) true
      = RpkiAgent.start (RpkiAgent.cleanup (RpkiAgent.cleanup
          (RpkiAgent.setStatus (RpkiAgent.failurePre s none (some .listener))
            "restarting") (some .worker)) (some .listener)) := rfl
  obtain ⟨hP1, hP2, hP3⟩ := failurePre_listener_fields s
  obtain ⟨hW1, hW2, hW3⟩ := cleanup_fields
    (RpkiAgent.setStatus (RpkiAgent.failurePre s none (some .listener))
      "restarting") (some .worker)
  obtain ⟨hL1, hL2, hL3⟩ := cleanup_fields
    (RpkiAgent.cleanup (RpkiAgent.setStatus
      (RpkiAgent.failurePre s none (some .listener)) "restarting")
      (some .worker)) (some .listener)
  have hA2 : (RpkiAgent.cleanup (RpkiAgent.cleanup (RpkiAgent.setStatus
      (RpkiAgent.failurePre s none (some .listener)) "restarting")
      (some .worker)) (some .listener)).hostOptions = s.hostOptions := by
    rw [hL2, hW2]
    simpa [RpkiAgent.setStatus] using hP2
  have hA1 : (RpkiAgent.cleanup (RpkiAgent.cleanup (RpkiAgent.setStatus
      (RpkiAgent.failurePre s none (some .listener)) "restarting")
      (some .worker)) (some .listener)).retired_listeners = s.retired_listeners := by
    rw [hL1, hW1]
    simpa [RpkiAgent.setStatus] using hP1
  have hA3 : (RpkiAgent.cleanup (RpkiAgent.cleanup (RpkiAgent.setStatus
      (RpkiAgent.failurePre s none (some .listener)) "restarting")
      (some .worker)) (some .listener)).trace
      = s.trace ++ ["error", "restarting", "cleanup", "cleanup"] := by
    rw [hL3, hW3]
    simp [RpkiAgent.setStatus, hP3]
  obtain ⟨h1, h2, rest, h3⟩ := start_spec
    (RpkiAgent.cleanup (RpkiAgent.cleanup (RpkiAgent.setStatus
      (RpkiAgent.failurePre s none (some .listener)) "restarting")
      (some .worker)) (some .listener))
    (by rw [hA2]; exact hopts)
    (cleanup_listener_dead _)
    (by rw [hA1]; exact hret)
  rw [hfail]
  refine ⟨h1, h2, ⟨rest, ?_⟩⟩
  rw [h3, hA3]
  simp

/-- The live listener of the C2 witness scenario, with a pending error on
its error channel. -/
def listenerW : ListenerProc :=
  { pid := 1
    p_err := { fd := 3, queue := [PyErr.valueError "listener died"] }
    p_data := { fd := 4, queue := [] }
    alive := true }

/-- The C2 witness state: a configured sleeping agent whose listener just
reported an error. -/
def s2w : AgentState :=
  { initialAgentState with
      listener := some listenerW
      status := some "sleeping"
      watching := [3]
      hostOptions := [("cache_url", some "https://rpki.example.net/export.json")]
      nextPid := 2
      nextFd := 5 }

/-- Closed instance of C2: handling the listener error on the concrete
scenario state leaves exactly one live listener. -/
theorem c2_listener_error_restart_witness :
    optsOk s2w.hostOptions = true
    ∧ (∀ l ∈ s2w.retired_listeners, l.alive = false)
    ∧ liveListeners (RpkiAgent.failure s2w none (some .listener) true).1 = 1
    ∧ (RpkiAgent.failure s2w none (some .listener) true).2 = none := by
  have hret : ∀ l ∈ s2w.retired_listeners, l.alive = false := by
    intro l hl
    simp [s2w, initialAgentState] at hl
  have h := c2_listener_error_restart_one_live_listener s2w rfl hret
  exact ⟨rfl, hret, h.1, h.2.1⟩
